import Mathlib

/-!
Verification development for the DeVitalik_ZX social-media agent
(`src/agent.py`, `src/connection_manager.py`, `src/connections/base.py`,
`src/connections/twitter/connection.py`).

The Python code is shallowly embedded: every definition below is a direct
transcription of a function of the repository (the comment above each one
names its source).  Machine-level details kept: Python truthiness, the
distinction between a dict key that is absent and one bound to `None`,
coroutine objects produced by calling an `async def` function without
`await`, and CPython 3.9+ `random.choices` semantics (binary `bisect` over
the accumulated weights).
-/

namespace DeVitalik

/-- A Python runtime value, as far as the agent code inspects one:
`None`, booleans, integers, strings, lists, string-keyed dicts, and
coroutine objects (the value produced by *calling* an `async def`
function without awaiting it; it records the call unevaluated). -/
inductive Py where
  | none
  | bool (b : Bool)
  | int (n : Int)
  | str (s : String)
  | list (xs : List Py)
  | dict (kvs : List (String × Py))
  | coroutine (conn : String) (action : String) (args : List Py)

/-- Python truthiness (`bool(v)`): `None`/`False`/`0`/`""`/`[]`/`{}` are
falsy; every coroutine object is truthy. -/
def Py.truthy : Py → Bool
  | .none => false
  | .bool b => b
  | .int n => n != 0
  | .str s => s != ""
  | .list xs => !xs.isEmpty
  | .dict kvs => !kvs.isEmpty
  | .coroutine _ _ _ => true

/-- `v.get(k)` (dict get, default `None`); `AttributeError` when `v` is
not a dict. -/
def Py.get (v : Py) (k : String) : Except String Py :=
  match v with
  | .dict kvs => .ok ((kvs.lookup k).getD Py.none)
  | _ => .error "AttributeError: no attribute get"

/-- `v.get(k, default)`; `AttributeError` when `v` is not a dict. -/
def Py.getOr (v : Py) (k : String) (default : Py) : Except String Py :=
  match v with
  | .dict kvs => .ok ((kvs.lookup k).getD default)
  | _ => .error "AttributeError: no attribute get"

/-- `v.pop(0)` on a list: the popped front element and the mutated
remainder; `IndexError` on an empty list, `AttributeError` on a
non-list. -/
def Py.pop0 : Py → Except String (Py × Py)
  | .list (x :: xs) => .ok (x, .list xs)
  | .list [] => .error "IndexError: pop from empty list"
  | _ => .error "AttributeError: no attribute pop"

/-- `v[:n]` slicing: lists and strings slice, everything else raises
`TypeError`. -/
def Py.sliceN (v : Py) (n : Nat) : Except String Py :=
  match v with
  | .list xs => .ok (.list (xs.take n))
  | .str s => .ok (.str (String.mk (s.data.take n)))
  | _ => .error "TypeError: object is not subscriptable"

/-- `target.extend(src)` where `target` is a list: appends the items of
an iterable `src` (a list, or the characters of a string); `TypeError`
otherwise. -/
def Py.extend (target src : Py) : Except String Py :=
  match target, src with
  | .list xs, .list ys => .ok (.list (xs ++ ys))
  | .list xs, .str s => .ok (.list (xs ++ s.data.map (fun c => Py.str (String.mk [c]))))
  | .list _, _ => .error "TypeError: object is not iterable"
  | _, _ => .error "AttributeError: no attribute extend"

/-- `str(v)` as interpolated into the agent's f-string prompts.  The
rendering of containers is abridged (the prompt text never feeds back
into any branching the claims concern). -/
def Py.toStr : Py → String
  | .none => "None"
  | .bool b => cond b "True" "False"
  | .int n => toString n
  | .str s => s
  | .list _ => "[...]"
  | .dict _ => "..."
  | .coroutine _ a _ => "coroutine " ++ a

/-- `len(v)`: defined on strings, lists and dicts; raises `TypeError`
otherwise (in particular on a coroutine object). -/
def Py.len : Py → Except String Nat
  | .str s => .ok s.length
  | .list xs => .ok xs.length
  | .dict kvs => .ok kvs.length
  | _ => .error "TypeError: object has no len"

/-- `v[k]` subscript on a dict: `KeyError` when the key is absent,
`TypeError` on a non-dict. -/
def Py.index (v : Py) (k : String) : Except String Py :=
  match v with
  | .dict kvs => match kvs.lookup k with
    | Option.some x => .ok x
    | Option.none => .error "KeyError"
  | _ => .error "TypeError: object is not subscriptable"

/-- ASCII lowercase of one character (`str.lower` acts per character;
the usernames compared by the agent are ASCII). -/
def lowerChar (c : Char) : Char :=
  if c.isUpper then Char.ofNat (c.toNat + 32) else c

/-- `s.lower()` on a string; `AttributeError` on anything else. -/
def Py.lower : Py → Except String String
  | .str s => .ok (String.mk (s.data.map lowerChar))
  | _ => .error "AttributeError: no attribute lower"

/-- `v == lit` where `lit` is a string literal: Python equality is
`False` (no error) when `v` is not a string. -/
def Py.strEq (v : Py) (lit : String) : Bool :=
  match v with
  | .str s => s == lit
  | _ => false

/-! ## Connection action registry

`src/connections/base_connection.py` is absent from the snapshot; the
`ActionParameter`/`Action` records it defines are reconstructed from
their constructor calls in `src/connections/twitter_connection.py` and
`src/connections/openai_connection.py`
(`ActionParameter("prompt", True, str, "...")`) and the field accesses
in `src/connection_manager.py` (`p.required`, `p.name`). -/

/-- Modelled from the spec: `ParamSpec{name, required, description}`
(§3 `ActionSpec`), matching `ActionParameter(name, required, type,
description)` as constructed in `src/connections/*_connection.py`; only
the `name` and `required` fields are read by the dispatcher. -/
structure ActionParameter where
  name : String
  required : Bool
  deriving Repr, DecidableEq

/-- An action registered on a connection: name and ordered parameter
list (`Action(name=..., parameters=[...], description=...)`). -/
structure Action where
  name : String
  parameters : List ActionParameter
  deriving Repr, DecidableEq

/-- `ConnectionState` (src/connections/base.py lines 17-22), the fields
the dispatcher reads. -/
structure ConnectionState where
  is_connected : Bool
  deriving Repr, DecidableEq

/-- A connection as `ConnectionManager.perform_action` sees one: its
state and its `actions` registry (a string-keyed dict). -/
structure Connection where
  state : ConnectionState
  actions : List (String × Action)
  deriving Repr

/-- `ConnectionManager`: the `connections` dict
(src/connection_manager.py line 21). -/
structure ConnectionManager where
  connections : List (String × Connection)
  deriving Repr

/-- What a call to `ConnectionManager.perform_action` does, as observed
by its caller once awaited: either Python `None` is returned (every
validation failure is logged and swallowed into this), or an exception
escapes to the caller, or the underlying capability is invoked with the
built kwargs. -/
inductive PAResult where
  | noneReturned
  | raised (e : String)
  | dispatched (action_name : String) (kwargs : List (String × Py))

/-- `ConnectionManager.perform_action` (src/connection_manager.py lines
114-150), awaited semantics.  The whole body sits in `try/except
Exception`: the `ConnectionError` that `get_connection` (lines 90-94)
raises for a missing connection is caught by that handler, so every
validation-failure path logs and returns `None`.  Required parameters
are matched positionally; `kwargs` is built from the required-parameter
list only. -/
def ConnectionManager.perform_action (mgr : ConnectionManager)
    (connection_name action_name : String) (params : List Py) : PAResult :=
  match (mgr.connections).lookup connection_name with
  | Option.none => .noneReturned
  | Option.some connection =>
    if !connection.state.is_connected then .noneReturned
    else match (connection.actions).lookup action_name with
      | Option.none => .noneReturned
      | Option.some action =>
        let required_params := action.parameters.filter (fun p => p.required)
        if params.length < required_params.length then .noneReturned
        else
          let kwargs := (required_params.zip params).map (fun pv => (pv.1.name, pv.2))
          .dispatched action_name kwargs

/-! ## Un-awaited calls (agent side)

`ConnectionManager.perform_action` is `async def`; `ZerePyAgent.loop`
and `ZerePyAgent.prompt_llm` (src/agent.py lines 108-112, 142-146,
170-174, ...) call it without `await` from synchronous code.  In Python,
calling an async function evaluates the arguments and returns a
coroutine object without running the body. -/

/-- The value an un-awaited call `self.connection_manager.perform_action
(connection_name=c, action_name=a, params=ps)` produces in synchronous
code: a coroutine object holding the call, the manager never consulted. -/
def syncPerformAction (_mgr : ConnectionManager)
    (connection_name action_name : String) (params : List Py) : Py :=
  Py.coroutine connection_name action_name params

/-- `ZerePyAgent.prompt_llm` (src/agent.py lines 92-112): builds
`params = [prompt]`, appends `system_prompt` when it is not `None`, and
returns the (un-awaited) `perform_action` call. -/
def prompt_llm (mgr : ConnectionManager) (model_provider : String)
    (prompt : String) (system_prompt : Option String) : Py :=
  let params : List Py :=
    match system_prompt with
    | Option.none => [Py.str prompt]
    | Option.some sp => [Py.str prompt, Py.str sp]
  syncPerformAction mgr model_provider "generate-text" params

/-! ## Retry wrapper

`BaseConnection._execute_with_retry` (src/connections/base.py lines
60-75).  The wrapped call is modelled as `f : Nat → Except String α`
giving each attempt's outcome (`.error e` = the awaited call raised with
message `e`).  The outcome records the returned/raised result, how many
times `f` was invoked, the durations passed to `asyncio.sleep` in order,
and the mutated `ConnectionState` error fields. -/

/-- The `error_count` / `last_error` fields of `ConnectionState`
(src/connections/base.py lines 21-22) that the retry wrapper mutates. -/
structure RetryState where
  error_count : Nat
  last_error : Option String
  deriving Repr, DecidableEq

/-- Observable outcome of one `_execute_with_retry` call.  `result = .ok
Option.none` is the implicit Python `None` returned if the `for` loop
body never runs (`retry_attempts = 0`). -/
structure RetryOutcome (α : Type) where
  result : Except String (Option α)
  calls : Nat
  sleeps : List ℚ
  final : RetryState

/-- The `for attempt in range(retry_attempts)` loop of
`_execute_with_retry`, unrolled on the number of remaining iterations
(`remaining = retry_attempts - attempt`).  Success returns the result
and resets `error_count` to 0; a failure increments `error_count`,
records the message, then sleeps `retry_delay * (attempt + 1)` if
another attempt remains, and re-raises on the final attempt. -/
def retryGo (retry_delay : ℚ) (f : Nat → Except String α) :
    Nat → Nat → RetryState → RetryOutcome α
  | _, 0, st => ⟨.ok Option.none, 0, [], st⟩
  | attempt, remaining + 1, st =>
    match f attempt with
    | .ok a => ⟨.ok (Option.some a), 1, [], ⟨0, st.last_error⟩⟩
    | .error e =>
      let st1 : RetryState := ⟨st.error_count + 1, Option.some e⟩
      if remaining = 0 then ⟨.error e, 1, [], st1⟩
      else
        let rest := retryGo retry_delay f (attempt + 1) remaining st1
        ⟨rest.result, rest.calls + 1,
          (retry_delay * ((attempt : ℚ) + 1)) :: rest.sleeps, rest.final⟩

/-- `BaseConnection._execute_with_retry` (src/connections/base.py lines
60-75): run the attempt loop from `attempt = 0`. -/
def _execute_with_retry (retry_attempts : Nat) (retry_delay : ℚ)
    (f : Nat → Except String α) (st : RetryState) : RetryOutcome α :=
  retryGo retry_delay f 0 retry_attempts st

/-! ## Twitter post/reply length validation

`TwitterConnection` in src/connections/twitter/connection.py (the class
`ConnectionManager` imports): the 280-character check lives inside
`_post_tweet_impl` / `_reply_to_tweet_impl`, the functions handed to
`_execute_with_retry`.  `api` stands for the outcome of the
`create_tweet` network call, constant across attempts. -/

/-- `TwitterConnection._post_tweet_impl` (lines 107-123). -/
def _post_tweet_impl (text : String) (api : Except String Py) :
    Except String Py :=
  if text.length > 280 then .error "Tweet exceeds 280 character limit"
  else api

/-- `TwitterConnection._reply_to_tweet_impl` (lines 203-220). -/
def _reply_to_tweet_impl (text : String) (api : Except String Py) :
    Except String Py :=
  if text.length > 280 then .error "Reply exceeds 280 character limit"
  else api

/-- `TwitterConnection.post_tweet` (lines 99-105): the impl wrapped in
`_execute_with_retry`. -/
def post_tweet (retry_attempts : Nat) (retry_delay : ℚ) (text : String)
    (api : Except String Py) (st : RetryState) : RetryOutcome Py :=
  _execute_with_retry retry_attempts retry_delay
    (fun _ => _post_tweet_impl text api) st

/-- `TwitterConnection.reply_to_tweet` (lines 194-201). -/
def reply_to_tweet (retry_attempts : Nat) (retry_delay : ℚ) (text : String)
    (api : Except String Py) (st : RetryState) : RetryOutcome Py :=
  _execute_with_retry retry_attempts retry_delay
    (fun _ => _reply_to_tweet_impl text api) st

/-! ## Weighted task selection

`random.choices(self.tasks, weights=self.task_weights, k=1)[0]`
(src/agent.py line 150), embedded from CPython 3.9+ `random.choices`:
accumulate the weights, reject a weight/population length mismatch, take
`total = cum_weights[-1]` (an `IndexError` on an empty list), reject
`total <= 0`, then index the population by
`bisect.bisect_right(cum_weights, random() * total, 0, n - 1)`.  The
uniform draw `random()` is the input `r`. -/

/-- `itertools.accumulate` with a running sum starting at `acc`. -/
def accumulateFrom (acc : ℚ) : List ℚ → List ℚ
  | [] => []
  | w :: ws => (acc + w) :: accumulateFrom (acc + w) ws

/-- `list(itertools.accumulate(weights))`. -/
def accumulate (ws : List ℚ) : List ℚ := accumulateFrom 0 ws

/-- The `while lo < hi` loop of `bisect.bisect_right`, with explicit
fuel (any fuel ≥ `hi - lo` yields the loop's result, since the span
shrinks every iteration). -/
def bisectGo (a : List ℚ) (x : ℚ) : Nat → Nat → Nat → Nat
  | 0, lo, _ => lo
  | fuel + 1, lo, hi =>
    if lo < hi then
      if x < a.getD ((lo + hi) / 2) 0 then bisectGo a x fuel lo ((lo + hi) / 2)
      else bisectGo a x fuel ((lo + hi) / 2 + 1) hi
    else lo

/-- `bisect.bisect_right(a, x, lo, hi)`. -/
def bisect_right (a : List ℚ) (x : ℚ) (lo hi : Nat) : Nat :=
  bisectGo a x (hi - lo) lo hi

/-- `random.choices(population, weights=weights, k=1)[0]` with the
uniform draw `r` supplied as an argument (CPython 3.9+ semantics; the
`isfinite` check never fires over ℚ). -/
def choices1 (population : List α) (weights : List ℚ) (r : ℚ) :
    Except String α :=
  let n := population.length
  let cum_weights := accumulate weights
  if cum_weights.length ≠ n then
    .error "ValueError: The number of weights does not match the population"
  else
    match cum_weights.getLast? with
    | Option.none => .error "IndexError: list index out of range"
    | Option.some total =>
      if total ≤ 0 then
        .error "ValueError: Total of weights must be greater than zero"
      else
        match population[bisect_right cum_weights (r * total) 0 (n - 1)]? with
        | Option.some t => .ok t
        | Option.none => .error "IndexError: list index out of range"

/-! ## The agent loop body

`ZerePyAgent.loop` (src/agent.py lines 117-312), one iteration of the
`while True` body (lines 136-308).  The value each
`connection_manager.perform_action` call produces for the agent is
supplied by an environment `env` (`.error e` = the call raises `e`):
this is the iteration's dataflow semantics, against which the branch
logic, buffer discipline and cooldown selection are settled.  (What the
un-awaited calls actually return is settled separately with
`syncPerformAction`.)  The `random()` draw behind `random.choices` is
the input `r`, and `time.time()` is the input `now`. -/

/-- An external call as the loop issues one: connection name, action
name, positional params. -/
abbrev EnvCall := String × String × List Py

/-- The environment: what each external call returns to the agent. -/
abbrev Env := EnvCall → Except String Py

/-- Fields of `ZerePyAgent` read by `loop` (src/agent.py lines 29-52
and 61-72): `username` is stored lowercased (line 70), `system_prompt`
is the memoized `_construct_system_prompt` result, `tasks` and
`task_weights` are extracted at construction (lines 51-52). -/
structure AgentCfg where
  loop_delay : ℚ
  tweet_interval : ℚ
  own_tweet_replies_count : Nat
  username : String
  system_prompt : String
  model_provider : String
  tasks : List Py
  task_weights : List ℚ

/-- Mutable state of the loop: `self.state["timeline_tweets"]`
(`Option.none` = key absent from the state dict) and the
`last_tweet_time` local, plus the trace of external calls issued so far
in the iteration. -/
structure LoopSt where
  timeline_tweets : Option Py
  last_tweet_time : ℚ
  calls : List EnvCall

/-- How the iteration body ends: reaches the `time.sleep` of line 303
with the final `success` flag, or hits a `continue`, or raises into the
`except` handler at the iteration boundary (lines 305-308). -/
inductive BodyExit where
  | done (success : Bool)
  | continued
  | exc (e : String)

/-- Append an issued external call to the trace. -/
def LoopSt.record (st : LoopSt) (c : EnvCall) : LoopSt :=
  { st with calls := st.calls ++ [c] }

/-- The tweet-generation prompt of src/agent.py lines 161-164
(abridged: the prompt wording never affects control flow). -/
def tweetPrompt : String :=
  "Generate a short, chaotic tweet. Keep it under 100 characters."

/-- The reply prompt of lines 207-211 around the popped tweet text
(abridged). -/
def replyPrompt (tweetText : Py) : String :=
  "Generate a short, chaotic reply to this tweet: " ++ tweetText.toStr ++
    ". Keep it under 100 characters."

/-- The image-prompt request of lines 252-254 (abridged). -/
def imagePromptRequest : String :=
  "Generate a prompt for DALL-E to create a surreal, technological visualization."

/-- The accompanying-tweet request of line 273. -/
def imageTweetRequest (imagePrompt : Py) : String :=
  "Generate a tweet to accompany this image. The image shows: " ++
    imagePrompt.toStr

/-- Self-reply detection of line 192:
`tweet.get('author_username', '').lower() == self.username`. -/
def is_own_tweet (username : String) (tweet : Py) : Except String Bool := do
  let au ← tweet.getOr "author_username" (Py.str "")
  let low ← au.lower
  pure (low == username)

/-- The log preview `tweet.get('text', '')[:50]` of lines 204 and 234
(its value is discarded, but it can raise). -/
def textPreview (tweet : Py) : Except String Py := do
  let t ← tweet.getOr "text" (Py.str "")
  t.sliceN 50

/-- The `post-tweet` branch, lines 154-181: interval-gated; an
ineligible iteration hits `continue` (line 181); a falsy generated text
skips posting and falls through with `success` still `False`. -/
def postBranch (cfg : AgentCfg) (env : Env) (now : ℚ) (st : LoopSt) :
    LoopSt × BodyExit :=
  if now - st.last_tweet_time ≥ cfg.tweet_interval then
    let c : EnvCall := (cfg.model_provider, "generate-text", [Py.str tweetPrompt])
    match env c with
    | .error e => (st.record c, .exc e)
    | .ok tweet_text =>
      let st1 := st.record c
      if tweet_text.truthy then
        let c2 : EnvCall := ("twitter", "post-tweet", [tweet_text])
        match env c2 with
        | .error e => (st1.record c2, .exc e)
        | .ok _ =>
          ({ st1.record c2 with last_tweet_time := now }, .done true)
      else (st1, .done false)
  else (st, .continued)

/-- The `reply-to-tweet` branch, lines 183-224: pops the front buffered
tweet before any check; a falsy id hits `continue` (line 189); an own
tweet fetches `get-tweet-replies` with the popped tweet's `author_id`,
extends the buffer with `replies[:own_tweet_replies_count]` when the
result is truthy, and hits `continue` (line 202); otherwise generates a
reply (prompt plus system prompt) and posts it when truthy. -/
def replyBranch (cfg : AgentCfg) (env : Env) (st : LoopSt) :
    LoopSt × BodyExit :=
  match st.timeline_tweets with
  | Option.none => (st, .done false)
  | Option.some Py.none => (st, .done false)
  | Option.some buf =>
    match buf.len with
    | .error e => (st, .exc e)
    | .ok n =>
      if n == 0 then (st, .done false)
      else
        match buf.pop0 with
        | .error e => (st, .exc e)
        | .ok (tweet, rest) =>
          let st1 := { st with timeline_tweets := Option.some rest }
          match tweet.get "id" with
          | .error e => (st1, .exc e)
          | .ok tweet_id =>
            if !tweet_id.truthy then (st1, .continued)
            else
              match is_own_tweet cfg.username tweet with
              | .error e => (st1, .exc e)
              | .ok true =>
                match tweet.get "author_id" with
                | .error e => (st1, .exc e)
                | .ok aid =>
                  let c : EnvCall := ("twitter", "get-tweet-replies", [aid])
                  match env c with
                  | .error e => (st1.record c, .exc e)
                  | .ok replies =>
                    let st2 := st1.record c
                    if replies.truthy then
                      match replies.sliceN cfg.own_tweet_replies_count with
                      | .error e => (st2, .exc e)
                      | .ok taken =>
                        match rest.extend taken with
                        | .error e => (st2, .exc e)
                        | .ok newbuf =>
                          ({ st2 with timeline_tweets := Option.some newbuf },
                            .continued)
                    else (st2, .continued)
              | .ok false =>
                match textPreview tweet with
                | .error e => (st1, .exc e)
                | .ok _ =>
                  match tweet.get "text" with
                  | .error e => (st1, .exc e)
                  | .ok ttext =>
                    let c : EnvCall := (cfg.model_provider, "generate-text",
                      [Py.str (replyPrompt ttext), Py.str cfg.system_prompt])
                    match env c with
                    | .error e => (st1.record c, .exc e)
                    | .ok reply_text =>
                      let st2 := st1.record c
                      if reply_text.truthy then
                        let c2 : EnvCall :=
                          ("twitter", "reply-to-tweet", [tweet_id, reply_text])
                        match env c2 with
                        | .error e => (st2.record c2, .exc e)
                        | .ok _ => (st2.record c2, .done true)
                      else (st2, .done false)

/-- The `like-tweet` branch, lines 226-242: pops the front buffered
tweet, `continue` on a falsy id, otherwise likes it and sets
`success = True` without inspecting the result. -/
def likeBranch (env : Env) (st : LoopSt) : LoopSt × BodyExit :=
  match st.timeline_tweets with
  | Option.none => (st, .done false)
  | Option.some Py.none => (st, .done false)
  | Option.some buf =>
    match buf.len with
    | .error e => (st, .exc e)
    | .ok n =>
      if n == 0 then (st, .done false)
      else
        match buf.pop0 with
        | .error e => (st, .exc e)
        | .ok (tweet, rest) =>
          let st1 := { st with timeline_tweets := Option.some rest }
          match tweet.get "id" with
          | .error e => (st1, .exc e)
          | .ok tweet_id =>
            if !tweet_id.truthy then (st1, .continued)
            else
              match textPreview tweet with
              | .error e => (st1, .exc e)
              | .ok _ =>
                let c : EnvCall := ("twitter", "like-tweet", [tweet_id])
                match env c with
                | .error e => (st1.record c, .exc e)
                | .ok _ => (st1.record c, .done true)

/-- The `post-image-tweet` branch, lines 244-299: interval-gated with
no `continue` (an ineligible pass falls through with `success` still
`False`); the generation chain sits in an inner `try` whose handler
sets `success = False`, so a raising step ends the iteration normally
(line 303's sleep still runs). -/
def imageBranch (cfg : AgentCfg) (env : Env) (now : ℚ) (st : LoopSt) :
    LoopSt × BodyExit :=
  if now - st.last_tweet_time ≥ cfg.tweet_interval then
    let c1 : EnvCall := (cfg.model_provider, "generate-text",
      [Py.str imagePromptRequest])
    match env c1 with
    | .error _ => (st.record c1, .done false)
    | .ok image_prompt =>
      let st1 := st.record c1
      if image_prompt.truthy then
        let c2 : EnvCall := ("openai", "generate-image", [image_prompt])
        match env c2 with
        | .error _ => (st1.record c2, .done false)
        | .ok image_url =>
          let st2 := st1.record c2
          if image_url.truthy then
            let c3 : EnvCall := (cfg.model_provider, "generate-text",
              [Py.str (imageTweetRequest image_prompt)])
            match env c3 with
            | .error _ => (st2.record c3, .done false)
            | .ok tweet_text =>
              let st3 := st2.record c3
              if tweet_text.truthy then
                let c4 : EnvCall := ("twitter", "post-tweet-with-media",
                  [tweet_text, image_url])
                match env c4 with
                | .error _ => (st3.record c4, .done false)
                | .ok _ =>
                  ({ st3.record c4 with last_tweet_time := now }, .done true)
              else (st3, .done false)
          else (st2, .done false)
      else (st1, .done false)
  else (st, .done false)

/-- One pass of the `while True` body (lines 136-299, before the sleep):
replenish the buffer when the state key is absent, `None` or empty;
select a task with `random.choices`; dispatch on the task name (an
unrecognized name falls through with `success = False`). -/
def loopBody (cfg : AgentCfg) (env : Env) (now r : ℚ) (st0 : LoopSt) :
    LoopSt × BodyExit :=
  let needs : Except String Bool :=
    match st0.timeline_tweets with
    | Option.none => .ok true
    | Option.some Py.none => .ok true
    | Option.some v => (v.len).map (fun n => n == 0)
  match needs with
  | .error e => (st0, .exc e)
  | .ok needsFetch =>
    let step1 : LoopSt × Option String :=
      if needsFetch then
        let c : EnvCall := ("twitter", "read-timeline", [])
        match env c with
        | .ok v => ({ st0.record c with timeline_tweets := Option.some v },
            Option.none)
        | .error e => (st0.record c, Option.some e)
      else (st0, Option.none)
    match step1 with
    | (st1, Option.some e) => (st1, .exc e)
    | (st1, Option.none) =>
      match choices1 cfg.tasks cfg.task_weights r with
      | .error e => (st1, .exc e)
      | .ok action =>
        match action.index "name" with
        | .error e => (st1, .exc e)
        | .ok action_name =>
          if action_name.strEq "post-tweet" then postBranch cfg env now st1
          else if action_name.strEq "reply-to-tweet" then replyBranch cfg env st1
          else if action_name.strEq "like-tweet" then likeBranch env st1
          else if action_name.strEq "post-image-tweet" then imageBranch cfg env now st1
          else (st1, .done false)

/-- Observable outcome of one loop iteration. -/
structure IterResult where
  timeline : Option Py
  last_tweet_time : ℚ
  calls : List EnvCall
  success : Bool
  continued : Bool
  raised : Bool
  sleep : Option ℚ

/-- One full loop iteration including the cooldown discipline:
`time.sleep(self.loop_delay if success else 60)` at line 303 after a
normally completed body, no sleep at all on `continue`, and
`time.sleep(self.loop_delay)` at line 308 when the body raised
(the `except` handler at the iteration boundary). -/
def loopIter (cfg : AgentCfg) (env : Env) (now r : ℚ) (st0 : LoopSt) :
    IterResult :=
  match loopBody cfg env now r st0 with
  | (st, .done s) =>
    ⟨st.timeline_tweets, st.last_tweet_time, st.calls, s, false, false,
      Option.some (if s then cfg.loop_delay else 60)⟩
  | (st, .continued) =>
    ⟨st.timeline_tweets, st.last_tweet_time, st.calls, false, true, false,
      Option.none⟩
  | (st, .exc _) =>
    ⟨st.timeline_tweets, st.last_tweet_time, st.calls, false, false, true,
      Option.some cfg.loop_delay⟩

/-! ## Sentiment/prompt tier selection -/

/-- Modelled from the spec: the repository snapshot has no
sentiment/prompt-strategy source under src/ (spec §4.3
`buildReplyPrompt`): three intensity tiers for hostile tone, inclusive
lower bounds (≥ 0.7 "maximum", ≥ 0.4 "strong", else "mild"); neutral
tone uses the plain reply template. -/
def replyPromptTier (tone : String) (intensity : ℚ) : String :=
  if tone = "hostile" then
    if intensity ≥ 0.7 then "maximum"
    else if intensity ≥ 0.4 then "strong"
    else "mild"
  else "plain"

/-! ## Helper lemmas -/

/-- Mapping `Prod.snd` over a zip whose left list is not longer gives a
prefix of the right list. -/
theorem map_snd_zip_of_le {α β : Type} :
    ∀ (l₁ : List α) (l₂ : List β), l₁.length ≤ l₂.length →
      (l₁.zip l₂).map Prod.snd = l₂.take l₁.length
  | [], _, _ => by simp
  | _ :: _, [], h => by simp at h
  | a :: l₁, b :: l₂, h => by
    simp only [List.zip_cons_cons, List.map_cons, List.length_cons,
      List.take_succ_cons]
    exact congrArg (b :: ·) (map_snd_zip_of_le l₁ l₂ (Nat.succ_le_succ_iff.mp h))

/-! ## C8 -/

/-- C8: the reply-prompt tier selection is total over the intensity and
has inclusive lower bounds for hostile tone: intensity exactly 0.4
selects "strong" and exactly 0.7 selects "maximum" (each boundary value
maps to the higher tier). -/
theorem C8_tier_boundaries :
    replyPromptTier "hostile" 0.4 = "strong" ∧
    replyPromptTier "hostile" 0.7 = "maximum" ∧
    (∀ i : ℚ, replyPromptTier "hostile" i = "maximum" ∨
      replyPromptTier "hostile" i = "strong" ∨
      replyPromptTier "hostile" i = "mild") := by
  refine ⟨by norm_num [replyPromptTier], by norm_num [replyPromptTier], ?_⟩
  intro i
  by_cases h7 : i ≥ 0.7
  · exact Or.inl (by simp [replyPromptTier, h7])
  · by_cases h4 : i ≥ 0.4
    · exact Or.inr (Or.inl (by simp [replyPromptTier, h7, h4]))
    · exact Or.inr (Or.inr (by simp [replyPromptTier, h7, h4]))

/-! ## C10 -/

/-- C10: every agent-side (synchronous, un-awaited) call of the async
`ConnectionManager.perform_action` — in particular the one inside
`prompt_llm` — returns an unevaluated coroutine object: the value is
independent of the manager (the dispatched capability never runs), it
is truthy for every prompt, and it is never the provider's generated
string (whereas an awaited empty generation would be falsy, the
truthiness guards like `if tweet_text:` always see `True`). -/
theorem C10_unawaited_coroutine :
    ∀ (mgr mgr2 : ConnectionManager) (mp prompt : String) (sp : Option String),
      prompt_llm mgr mp prompt sp =
        Py.coroutine mp "generate-text"
          (match sp with
            | Option.none => [Py.str prompt]
            | Option.some s => [Py.str prompt, Py.str s]) ∧
      (prompt_llm mgr mp prompt sp).truthy = true ∧
      prompt_llm mgr mp prompt sp = prompt_llm mgr2 mp prompt sp ∧
      (∀ providerOutput : String, prompt_llm mgr mp prompt sp ≠ Py.str providerOutput) ∧
      (Py.str "").truthy = false := by
  intro mgr mgr2 mp prompt sp
  refine ⟨rfl, ?_, rfl, ?_, rfl⟩
  · cases sp <;> rfl
  · intro providerOutput h
    cases sp <;> simp [prompt_llm, syncPerformAction] at h

/-! ## C2 -/

/-- C2 counterexample: with `loop_delay = 5` and an environment whose
`read-timeline` call raises, the iteration fails with an exception
caught at the iteration boundary — and sleeps `loop_delay = 5` seconds
(src/agent.py line 308), not the fixed 60-second fallback the claim
requires for failed iterations. -/
theorem C2_exception_sleeps_loop_delay :
    (loopIter ⟨5, 900, 2, "u", "sys", "anthropic", [], []⟩
        (fun _ => Except.error "network down") 0 0
        ⟨Option.none, 0, []⟩).raised = true ∧
    (loopIter ⟨5, 900, 2, "u", "sys", "anthropic", [], []⟩
        (fun _ => Except.error "network down") 0 0
        ⟨Option.none, 0, []⟩).sleep = Option.some 5 ∧
    (loopIter ⟨5, 900, 2, "u", "sys", "anthropic", [], []⟩
        (fun _ => Except.error "network down") 0 0
        ⟨Option.none, 0, []⟩).sleep ≠ Option.some 60 := by
  refine ⟨rfl, rfl, ?_⟩
  intro h
  exact absurd (Option.some.inj h) (by norm_num)

/-- C2 (amended): the cooldown discipline actually implemented: a
normally completed iteration sleeps `loop_delay` on success and 60
seconds on failure; an iteration skipped via `continue` does not sleep
at all; and an iteration whose failure is an exception caught at the
iteration boundary sleeps `loop_delay`, not the 60-second fallback. -/
theorem C2_cooldown_discipline :
    ∀ (cfg : AgentCfg) (env : Env) (now r : ℚ) (st : LoopSt),
      (loopIter cfg env now r st).sleep =
        (if (loopIter cfg env now r st).raised then Option.some cfg.loop_delay
          else if (loopIter cfg env now r st).continued then Option.none
          else if (loopIter cfg env now r st).success then Option.some cfg.loop_delay
          else Option.some 60) := by
  intro cfg env now r st
  unfold loopIter
  rcases loopBody cfg env now r st with ⟨st1, ex⟩
  cases ex with
  | done s => cases s <;> simp
  | continued => simp
  | exc e => simp

/-! ## C1 -/

/-- C1 counterexample: calling `perform_action` on a manager with no
connections returns Python `None` to the caller (the `ConnectionError`
raised by `get_connection` is caught by the body's own `except` and
logged): no `UnknownConnectionKind`-style error is surfaced — indeed the
embedding's `raised` outcome is never produced. -/
theorem C1_missing_connection_swallowed :
    ConnectionManager.perform_action ⟨[]⟩ "twitter" "post-tweet" [] =
      PAResult.noneReturned := rfl

/-- C1 (amended): each of the four dispatch-time contract violations —
unknown connection, connection not connected, unregistered action,
missing required parameter — is logged and swallowed:
`perform_action` returns `None` to its caller in every such case, and
no exception reaches the caller. -/
theorem C1_violations_return_none :
    ∀ (mgr : ConnectionManager) (cn an : String) (params : List Py),
      ((mgr.connections).lookup cn = Option.none →
        mgr.perform_action cn an params = PAResult.noneReturned) ∧
      (∀ conn : Connection, (mgr.connections).lookup cn = Option.some conn →
        conn.state.is_connected = false →
        mgr.perform_action cn an params = PAResult.noneReturned) ∧
      (∀ conn : Connection, (mgr.connections).lookup cn = Option.some conn →
        conn.state.is_connected = true →
        (conn.actions).lookup an = Option.none →
        mgr.perform_action cn an params = PAResult.noneReturned) ∧
      (∀ (conn : Connection) (action : Action),
        (mgr.connections).lookup cn = Option.some conn →
        conn.state.is_connected = true →
        (conn.actions).lookup an = Option.some action →
        params.length < (action.parameters.filter (fun p => p.required)).length →
        mgr.perform_action cn an params = PAResult.noneReturned) := by
  intro mgr cn an params
  refine ⟨?_, ?_, ?_, ?_⟩
  · intro h; simp [ConnectionManager.perform_action, h]
  · intro conn h hc; simp [ConnectionManager.perform_action, h, hc]
  · intro conn h hc ha; simp [ConnectionManager.perform_action, h, hc, ha]
  · intro conn action h hc ha hp
    simp [ConnectionManager.perform_action, h, hc, ha, hp]

/-- C1 witness: the four violation cases at concrete inputs, each
discharged through the amended theorem: a missing connection, a
registered but unconnected twitter connection, an unknown action on a
connected connection, and a `post-tweet` call missing its required
`message` parameter. -/
theorem C1_violations_return_none_witness :
    ConnectionManager.perform_action ⟨[]⟩ "twitter" "post-tweet" [Py.str "hi"] =
      PAResult.noneReturned ∧
    ConnectionManager.perform_action ⟨[("twitter", ⟨⟨false⟩, []⟩)]⟩
        "twitter" "post-tweet" [Py.str "hi"] = PAResult.noneReturned ∧
    ConnectionManager.perform_action ⟨[("twitter", ⟨⟨true⟩, []⟩)]⟩
        "twitter" "dance" [Py.str "hi"] = PAResult.noneReturned ∧
    ConnectionManager.perform_action
        ⟨[("twitter", ⟨⟨true⟩,
          [("post-tweet", ⟨"post-tweet", [⟨"message", true⟩]⟩)]⟩)]⟩
        "twitter" "post-tweet" [] = PAResult.noneReturned := by
  refine ⟨?_, ?_, ?_, ?_⟩
  · exact (C1_violations_return_none ⟨[]⟩ "twitter" "post-tweet" [Py.str "hi"]).1 rfl
  · exact (C1_violations_return_none _ "twitter" "post-tweet"
      [Py.str "hi"]).2.1 ⟨⟨false⟩, []⟩ rfl rfl
  · exact (C1_violations_return_none _ "twitter" "dance"
      [Py.str "hi"]).2.2.1 ⟨⟨true⟩, []⟩ rfl rfl rfl
  · exact (C1_violations_return_none _ "twitter" "post-tweet" []).2.2.2
      ⟨⟨true⟩, [("post-tweet", ⟨"post-tweet", [⟨"message", true⟩]⟩)]⟩
      ⟨"post-tweet", [⟨"message", true⟩]⟩ rfl rfl rfl (by decide)

/-! ## C9 -/

/-- C9: `perform_action` builds the kwargs passed on to the connection
from the action's required-parameter list only: the keys are exactly the
required parameter names, the values are the first `k` positional
params (`k` = number of required parameters), and every extra entry —
such as a supplied optional `system_prompt` for `generate-text` — is
silently dropped and never reaches the underlying capability. -/
theorem C9_extras_dropped :
    ∀ (mgr : ConnectionManager) (cn an : String) (params : List Py)
      (conn : Connection) (action : Action),
      (mgr.connections).lookup cn = Option.some conn →
      conn.state.is_connected = true →
      (conn.actions).lookup an = Option.some action →
      (action.parameters.filter (fun p => p.required)).length ≤ params.length →
      mgr.perform_action cn an params =
        PAResult.dispatched an
          (((action.parameters.filter (fun p => p.required)).zip params).map
            (fun pv => (pv.1.name, pv.2))) ∧
      (((action.parameters.filter (fun p => p.required)).zip params).map
          (fun pv => (pv.1.name, pv.2))).map Prod.fst =
        (action.parameters.filter (fun p => p.required)).map ActionParameter.name ∧
      (((action.parameters.filter (fun p => p.required)).zip params).map
          (fun pv => (pv.1.name, pv.2))).map Prod.snd =
        params.take (action.parameters.filter (fun p => p.required)).length := by
  intro mgr cn an params conn action h hc ha hlen
  refine ⟨?_, ?_, ?_⟩
  · simp only [ConnectionManager.perform_action, h, hc, ha]
    simp [Nat.not_lt.mpr hlen]
  · have : (((action.parameters.filter (fun p => p.required)).zip params).map
        (fun pv => (pv.1.name, pv.2))).map Prod.fst =
        (((action.parameters.filter (fun p => p.required)).zip params).map
          Prod.fst).map ActionParameter.name := by
      simp [List.map_map]
    rw [this, List.map_fst_zip _ _ hlen]
  · have : (((action.parameters.filter (fun p => p.required)).zip params).map
        (fun pv => (pv.1.name, pv.2))).map Prod.snd =
        ((action.parameters.filter (fun p => p.required)).zip params).map
          Prod.snd := by
      simp [List.map_map]
    rw [this, map_snd_zip_of_le _ _ hlen]

/-- C9 witness: a `generate-text` action declaring a required `prompt`
and an optional `system_prompt`, called with two positional params as
`prompt_llm` does: only `prompt` is passed through; the supplied system
prompt is dropped. -/
theorem C9_extras_dropped_witness :
    ConnectionManager.perform_action
        ⟨[("anthropic", ⟨⟨true⟩,
          [("generate-text", ⟨"generate-text",
            [⟨"prompt", true⟩, ⟨"system_prompt", false⟩]⟩)]⟩)]⟩
        "anthropic" "generate-text" [Py.str "p", Py.str "sys"] =
      PAResult.dispatched "generate-text" [("prompt", Py.str "p")] :=
  (C9_extras_dropped
    ⟨[("anthropic", ⟨⟨true⟩,
      [("generate-text", ⟨"generate-text",
        [⟨"prompt", true⟩, ⟨"system_prompt", false⟩]⟩)]⟩)]⟩
    "anthropic" "generate-text" [Py.str "p", Py.str "sys"]
    ⟨⟨true⟩, [("generate-text", ⟨"generate-text",
      [⟨"prompt", true⟩, ⟨"system_prompt", false⟩]⟩)]⟩
    ⟨"generate-text", [⟨"prompt", true⟩, ⟨"system_prompt", false⟩]⟩
    rfl rfl rfl (by decide)).1

/-! ## Retry lemmas -/

/-- One-step unfolding of the retry loop with at least one attempt
left. -/
theorem retryGo_succ {α : Type} (delay : ℚ) (f : Nat → Except String α)
    (attempt rem : Nat) (st : RetryState) :
    retryGo delay f attempt (rem + 1) st =
      match f attempt with
      | .ok a => ⟨.ok (Option.some a), 1, [], ⟨0, st.last_error⟩⟩
      | .error e =>
        if rem = 0 then ⟨.error e, 1, [], ⟨st.error_count + 1, Option.some e⟩⟩
        else
          ⟨(retryGo delay f (attempt + 1) rem
              ⟨st.error_count + 1, Option.some e⟩).result,
            (retryGo delay f (attempt + 1) rem
              ⟨st.error_count + 1, Option.some e⟩).calls + 1,
            (delay * ((attempt : ℚ) + 1)) ::
              (retryGo delay f (attempt + 1) rem
                ⟨st.error_count + 1, Option.some e⟩).sleeps,
            (retryGo delay f (attempt + 1) rem
              ⟨st.error_count + 1, Option.some e⟩).final⟩ := rfl

/-- When every attempt from `attempt` through `attempt + rem` fails,
the retry loop performs all `rem + 1` calls, sleeps
`delay * (attempt + 1), ..., delay * (attempt + rem)` between them,
accumulates the failures into `error_count`, records the last message,
and re-raises the final exception. -/
theorem retryGo_allFail {α : Type} (delay : ℚ) (f : Nat → Except String α)
    (msg : Nat → String) :
    ∀ (rem attempt : Nat) (st : RetryState),
      (∀ j, attempt ≤ j → j ≤ attempt + rem → f j = .error (msg j)) →
      retryGo delay f attempt (rem + 1) st =
        ⟨.error (msg (attempt + rem)), rem + 1,
          (List.range' (attempt + 1) rem).map (fun k : Nat => delay * (k : ℚ)),
          ⟨st.error_count + (rem + 1), Option.some (msg (attempt + rem))⟩⟩ := by
  intro rem
  induction rem with
  | zero =>
    intro attempt st hf
    have hcur : f attempt = .error (msg attempt) :=
      hf attempt (Nat.le_refl _) (by omega)
    simp [retryGo_succ, hcur]
  | succ r ih =>
    intro attempt st hf
    have hcur : f attempt = .error (msg attempt) :=
      hf attempt (Nat.le_refl _) (by omega)
    have hrec := ih (attempt + 1) ⟨st.error_count + 1, Option.some (msg attempt)⟩
      (fun j hj1 hj2 => hf j (by omega) (by omega))
    rw [retryGo_succ]
    simp only [hcur]
    rw [if_neg (by omega : ¬ (r + 1 = 0)), hrec]
    have e1 : attempt + 1 + r = attempt + (r + 1) := by omega
    have e2 : st.error_count + 1 + (r + 1) = st.error_count + (r + 1 + 1) := by
      omega
    rw [e1, e2]
    simp [List.range'_succ]

/-- When attempts `attempt, ..., attempt + d - 1` fail and attempt
`attempt + d` succeeds (within the budget), the loop returns the
success, makes `d + 1` calls, sleeps after each failure, and resets
`error_count` to 0. -/
theorem retryGo_firstSuccess {α : Type} (delay : ℚ) (f : Nat → Except String α) :
    ∀ (d attempt remaining : Nat) (st : RetryState) (v : α),
      d < remaining →
      f (attempt + d) = .ok v →
      (∀ j, attempt ≤ j → j < attempt + d → ∃ e, f j = .error e) →
      (retryGo delay f attempt remaining st).result = .ok (Option.some v) ∧
      (retryGo delay f attempt remaining st).calls = d + 1 ∧
      (retryGo delay f attempt remaining st).sleeps =
        (List.range' (attempt + 1) d).map (fun k : Nat => delay * (k : ℚ)) ∧
      (retryGo delay f attempt remaining st).final.error_count = 0 := by
  intro d
  induction d with
  | zero =>
    intro attempt remaining st v hd hok _
    match remaining, hd with
    | rem + 1, _ =>
      rw [Nat.add_zero] at hok
      simp [retryGo_succ, hok]
  | succ d ih =>
    intro attempt remaining st v hd hok herr
    match remaining, hd with
    | rem + 1, hd =>
      obtain ⟨e, he⟩ := herr attempt (Nat.le_refl _) (by omega)
      have hok1 : f (attempt + 1 + d) = .ok v := by
        have : attempt + 1 + d = attempt + (d + 1) := by omega
        rw [this]; exact hok
      have hrec := ih (attempt + 1) rem ⟨st.error_count + 1, Option.some e⟩ v
        (by omega) hok1 (fun j hj1 hj2 => herr j (by omega) (by omega))
      rw [retryGo_succ]
      simp only [he]
      rw [if_neg (by omega : ¬ (rem = 0))]
      refine ⟨hrec.1, by rw [hrec.2.1], ?_, hrec.2.2.2⟩
      rw [hrec.2.2.1]
      simp [List.range'_succ]

/-- The retry loop never calls the wrapped function more often than the
remaining attempt budget. -/
theorem retryGo_calls_le {α : Type} (delay : ℚ) (f : Nat → Except String α) :
    ∀ (remaining attempt : Nat) (st : RetryState),
      (retryGo delay f attempt remaining st).calls ≤ remaining := by
  intro remaining
  induction remaining with
  | zero => intro attempt st; simp [retryGo]
  | succ rem ih =>
    intro attempt st
    rcases hf : f attempt with e | a
    · by_cases hrem : rem = 0
      · simp [retryGo_succ, hf, hrem]
      · rw [retryGo_succ]
        simp only [hf]
        rw [if_neg hrem]
        exact Nat.succ_le_succ (ih (attempt + 1) _)
    · simp [retryGo_succ, hf]

/-! ## C3 -/

/-- C3: `_execute_with_retry` invokes the wrapped function at most
`retry_attempts` times; if attempt `k` succeeds after `k` failures the
success result is returned after exactly `k + 1` calls with
`error_count` reset to 0 and a sleep of `retry_delay * j` after the
`j`-th (1-based) failed attempt; if every attempt fails, the final
exception is re-raised after exactly `retry_attempts` calls, with
`error_count` incremented per failure and the last message recorded. -/
theorem C3_retry_wrapper {α : Type} :
    ∀ (attempts : Nat) (delay : ℚ) (f : Nat → Except String α) (st : RetryState),
      (_execute_with_retry attempts delay f st).calls ≤ attempts ∧
      (∀ (k : Nat) (v : α), k < attempts → f k = .ok v →
        (∀ j, j < k → ∃ e, f j = .error e) →
        (_execute_with_retry attempts delay f st).result = .ok (Option.some v) ∧
        (_execute_with_retry attempts delay f st).calls = k + 1 ∧
        (_execute_with_retry attempts delay f st).final.error_count = 0 ∧
        (_execute_with_retry attempts delay f st).sleeps =
          (List.range' 1 k).map (fun j : Nat => delay * (j : ℚ))) ∧
      (∀ msg : Nat → String, 1 ≤ attempts →
        (∀ j, j < attempts → f j = .error (msg j)) →
        (_execute_with_retry attempts delay f st).result =
          .error (msg (attempts - 1)) ∧
        (_execute_with_retry attempts delay f st).calls = attempts ∧
        (_execute_with_retry attempts delay f st).final =
          ⟨st.error_count + attempts, Option.some (msg (attempts - 1))⟩ ∧
        (_execute_with_retry attempts delay f st).sleeps =
          (List.range' 1 (attempts - 1)).map (fun j : Nat => delay * (j : ℚ))) := by
  intro attempts delay f st
  refine ⟨retryGo_calls_le delay f attempts 0 st, ?_, ?_⟩
  · intro k v hk hok herr
    have h := retryGo_firstSuccess delay f k 0 attempts st v hk
      (by rw [Nat.zero_add]; exact hok)
      (fun j hj1 hj2 => herr j (by omega))
    exact ⟨h.1, h.2.1, h.2.2.2, h.2.2.1⟩
  · intro msg h1 hfail
    match attempts, h1 with
    | rem + 1, _ =>
      have h := retryGo_allFail delay f msg rem 0 st
        (fun j hj1 hj2 => hfail j (by omega))
      rw [Nat.zero_add] at h
      unfold _execute_with_retry
      rw [h]
      exact ⟨rfl, rfl, rfl, by simp⟩

/-- C3 witness: with `attempts = 3` and `delay = 1`, a function failing
twice then succeeding returns the success after exactly 3 calls with
sleeps 1 and 2 and a reset error count; an always-failing function
re-raises after exactly 3 calls. -/
theorem C3_retry_wrapper_witness :
    ((_execute_with_retry 3 1
        (fun j => if j < 2 then Except.error "boom" else Except.ok (42 : Nat))
        ⟨5, Option.none⟩).result = Except.ok (Option.some 42) ∧
      (_execute_with_retry 3 1
        (fun j => if j < 2 then Except.error "boom" else Except.ok (42 : Nat))
        ⟨5, Option.none⟩).calls = 3 ∧
      (_execute_with_retry 3 1
        (fun j => if j < 2 then Except.error "boom" else Except.ok (42 : Nat))
        ⟨5, Option.none⟩).final.error_count = 0 ∧
      (_execute_with_retry 3 1
        (fun j => if j < 2 then Except.error "boom" else Except.ok (42 : Nat))
        ⟨5, Option.none⟩).sleeps = [1, 2]) ∧
    ((_execute_with_retry 3 1 (fun _ => (Except.error "down" : Except String Nat))
        ⟨0, Option.none⟩).result = Except.error "down" ∧
      (_execute_with_retry 3 1 (fun _ => (Except.error "down" : Except String Nat))
        ⟨0, Option.none⟩).calls = 3) := by
  constructor
  · have h := (C3_retry_wrapper 3 1
      (fun j => if j < 2 then Except.error "boom" else Except.ok (42 : Nat))
      ⟨5, Option.none⟩).2.1 2 42 (by omega) (by norm_num)
      (fun j hj => ⟨"boom", by simp [hj]⟩)
    refine ⟨h.1, h.2.1, h.2.2.1, ?_⟩
    rw [h.2.2.2]
    norm_num [List.range']
  · have h := (C3_retry_wrapper 3 1
      (fun _ => (Except.error "down" : Except String Nat))
      ⟨0, Option.none⟩).2.2 (fun _ => "down") (by omega) (fun j _ => rfl)
    exact ⟨h.1, h.2.1⟩

/-! ## C7 -/

/-- A 281-character text. -/
def text281 : String := String.mk (List.replicate 281 'a')

/-- Length of the 281-character text. -/
theorem text281_length : text281.length = 281 := by
  show (List.replicate 281 'a').length = 281
  rw [List.length_replicate]

/-- C7 counterexample: a 281-character tweet with `retry_attempts = 3`
and `retry_delay = 1`: the length validation raises *inside* the
function handed to `_execute_with_retry`, so the `ValueError` is
retried — 3 calls with backoff sleeps of 1 and 2 seconds — rather than
surfaced immediately as the claim requires. -/
theorem C7_validation_is_retried :
    (post_tweet 3 1 text281 (Except.ok (Py.dict [])) ⟨0, Option.none⟩).calls = 3 ∧
    (post_tweet 3 1 text281 (Except.ok (Py.dict [])) ⟨0, Option.none⟩).sleeps =
      [1, 2] ∧
    (post_tweet 3 1 text281 (Except.ok (Py.dict [])) ⟨0, Option.none⟩).result =
      Except.error "Tweet exceeds 280 character limit" := by
  have hlen : 280 < text281.length := by rw [text281_length]; omega
  have hall := retryGo_allFail 1
    (fun _ : Nat => _post_tweet_impl text281 (Except.ok (Py.dict [])))
    (fun _ => "Tweet exceeds 280 character limit") 2 0 ⟨0, Option.none⟩
    (fun j _ _ => by simp [_post_tweet_impl, hlen])
  have hpt : post_tweet 3 1 text281 (Except.ok (Py.dict [])) ⟨0, Option.none⟩ =
      retryGo 1 (fun _ : Nat => _post_tweet_impl text281 (Except.ok (Py.dict [])))
        0 (2 + 1) ⟨0, Option.none⟩ := rfl
  rw [hpt, hall]
  have hr : List.range' (0 + 1) 2 = [1, 2] := by decide
  rw [hr]
  refine ⟨rfl, ?_, rfl⟩
  norm_num

/-- C7 (amended): `post_tweet` / `reply_to_tweet` fail with the length
`ValueError` exactly when the text exceeds 280 characters — but since
the check runs inside the retried implementation, the failure is
re-attempted `retry_attempts` times with linear-backoff sleeps before
the final exception is surfaced; texts within the limit succeed on the
first call when the API call succeeds. -/
theorem C7_length_validation :
    ∀ (attempts : Nat) (delay : ℚ) (text : String) (api : Except String Py)
      (st : RetryState), 1 ≤ attempts →
      (280 < text.length →
        (post_tweet attempts delay text api st).result =
          Except.error "Tweet exceeds 280 character limit" ∧
        (post_tweet attempts delay text api st).calls = attempts ∧
        (post_tweet attempts delay text api st).sleeps =
          (List.range' 1 (attempts - 1)).map (fun k : Nat => delay * (k : ℚ)) ∧
        (reply_to_tweet attempts delay text api st).result =
          Except.error "Reply exceeds 280 character limit" ∧
        (reply_to_tweet attempts delay text api st).calls = attempts) ∧
      (text.length ≤ 280 → ∀ t : Py, api = Except.ok t →
        (post_tweet attempts delay text api st).result =
          Except.ok (Option.some t) ∧
        (post_tweet attempts delay text api st).calls = 1 ∧
        (post_tweet attempts delay text api st).sleeps = [] ∧
        (reply_to_tweet attempts delay text api st).result =
          Except.ok (Option.some t) ∧
        (reply_to_tweet attempts delay text api st).calls = 1) := by
  intro attempts delay text api st h1
  constructor
  · intro hlen
    have hko : ∀ j : Nat, _post_tweet_impl text api = Except.error
        "Tweet exceeds 280 character limit" := by
      intro _; simp [_post_tweet_impl, hlen]
    have hko2 : ∀ j : Nat, _reply_to_tweet_impl text api = Except.error
        "Reply exceeds 280 character limit" := by
      intro _; simp [_reply_to_tweet_impl, hlen]
    match attempts, h1 with
    | rem + 1, _ =>
      have hp := retryGo_allFail delay (fun _ => _post_tweet_impl text api)
        (fun _ => "Tweet exceeds 280 character limit") rem 0 st
        (fun j _ _ => hko j)
      have hr := retryGo_allFail delay (fun _ => _reply_to_tweet_impl text api)
        (fun _ => "Reply exceeds 280 character limit") rem 0 st
        (fun j _ _ => hko2 j)
      unfold post_tweet reply_to_tweet _execute_with_retry
      rw [hp, hr]
      exact ⟨rfl, rfl, by simp, rfl, rfl⟩
  · intro hlen t hapi
    have hok : (fun _ : Nat => _post_tweet_impl text api) 0 = Except.ok t := by
      simp [_post_tweet_impl, Nat.not_lt.mpr hlen, hapi]
    have hok2 : (fun _ : Nat => _reply_to_tweet_impl text api) 0 = Except.ok t := by
      simp [_reply_to_tweet_impl, Nat.not_lt.mpr hlen, hapi]
    have hp := retryGo_firstSuccess delay (fun _ => _post_tweet_impl text api)
      0 0 attempts st t (by omega) hok (fun j hj1 hj2 => absurd hj2 (by omega))
    have hr := retryGo_firstSuccess delay (fun _ => _reply_to_tweet_impl text api)
      0 0 attempts st t (by omega) hok2 (fun j hj1 hj2 => absurd hj2 (by omega))
    exact ⟨hp.1, hp.2.1, by simpa using hp.2.2.1, hr.1, hr.2.1⟩

/-- C7 witness: the amended theorem applied to the 281-character text
(3 calls, backoff sleeps, final `ValueError`) and to a short text
(single successful call). -/
theorem C7_length_validation_witness :
    (post_tweet 3 1 text281 (Except.ok (Py.str "posted")) ⟨0, Option.none⟩).calls
      = 3 ∧
    (post_tweet 4 1 "hi" (Except.ok (Py.str "posted")) ⟨0, Option.none⟩).calls
      = 1 := by
  constructor
  · exact ((C7_length_validation 3 1 text281 (Except.ok (Py.str "posted"))
      ⟨0, Option.none⟩ (by omega)).1 (by rw [text281_length]; omega)).2.1
  · exact ((C7_length_validation 4 1 "hi" (Except.ok (Py.str "posted"))
      ⟨0, Option.none⟩ (by omega)).2 (by decide) (Py.str "posted") rfl).2.1

/-! ## Task-selection lemmas -/

/-- `accumulate` preserves length. -/
theorem accumulateFrom_length (ws : List ℚ) :
    ∀ acc : ℚ, (accumulateFrom acc ws).length = ws.length := by
  induction ws with
  | nil => intro acc; rfl
  | cons w ws ih => intro acc; simp [accumulateFrom, ih]

/-- The `i`-th accumulated value is the running start plus the sum of
the first `i + 1` weights. -/
theorem accumulateFrom_getD :
    ∀ (ws : List ℚ) (acc : ℚ) (i : Nat), i < ws.length →
      (accumulateFrom acc ws).getD i 0 = acc + (ws.take (i + 1)).sum := by
  intro ws
  induction ws with
  | nil => intro acc i h; simp at h
  | cons w ws ih =>
    intro acc i h
    cases i with
    | zero => simp [accumulateFrom]
    | succ i =>
      simp only [accumulateFrom, List.getD_cons_succ]
      rw [ih (acc + w) i (by simpa using h)]
      simp [List.take_succ_cons, add_assoc]

/-- Prefix sums of nonnegative weights are monotone in the prefix
length. -/
theorem sum_take_le (ws : List ℚ) (hnn : ∀ w ∈ ws, 0 ≤ w)
    (i j : Nat) (hij : i ≤ j) : (ws.take i).sum ≤ (ws.take j).sum := by
  rw [show j = i + (j - i) by omega, List.take_add, List.sum_append]
  have h2 : 0 ≤ ((ws.drop i).take (j - i)).sum := by
    refine List.sum_nonneg (fun x hx => hnn x ?_)
    exact List.drop_subset i ws (List.take_subset _ _ hx)
  linarith

/-- The accumulated-weights list is monotone when the weights are
nonnegative. -/
theorem accumulateFrom_mono (ws : List ℚ) (hnn : ∀ w ∈ ws, 0 ≤ w)
    (acc : ℚ) (i j : Nat) (hij : i ≤ j)
    (hj : j < (accumulateFrom acc ws).length) :
    (accumulateFrom acc ws).getD i 0 ≤ (accumulateFrom acc ws).getD j 0 := by
  rw [accumulateFrom_length] at hj
  rw [accumulateFrom_getD ws acc i (by omega), accumulateFrom_getD ws acc j hj]
  have := sum_take_le ws hnn (i + 1) (j + 1) (by omega)
  linarith

/-- The last accumulated value is the running start plus the total. -/
theorem accumulateFrom_getLast :
    ∀ (ws : List ℚ) (acc : ℚ), ws ≠ [] →
      (accumulateFrom acc ws).getLast? = Option.some (acc + ws.sum) := by
  intro ws
  induction ws with
  | nil => intro acc h; exact absurd rfl h
  | cons w ws ih =>
    intro acc _
    cases ws with
    | nil => simp [accumulateFrom]
    | cons w2 rest =>
      have h2 := ih (acc + w) (by simp)
      simp only [accumulateFrom] at h2 ⊢
      rw [List.getLast?_cons_cons, h2]
      simp [add_assoc]

/-- A list of nonnegative entries one of which is positive has a
positive sum. -/
theorem sum_pos_of_mem :
    ∀ (ws : List ℚ), (∀ w ∈ ws, 0 ≤ w) → (∃ w ∈ ws, 0 < w) → 0 < ws.sum := by
  intro ws
  induction ws with
  | nil =>
    intro _ h
    obtain ⟨w, hw, _⟩ := h
    cases hw
  | cons a l ih =>
    intro hnn h
    obtain ⟨w, hw, hwpos⟩ := h
    rw [List.sum_cons]
    have h0 : 0 ≤ l.sum :=
      List.sum_nonneg (fun x hx => hnn x (List.mem_cons_of_mem _ hx))
    rcases List.mem_cons.mp hw with h | h
    · subst h; linarith
    · have ha : 0 ≤ a := hnn a (List.mem_cons_self _ _)
      have hl := ih (fun x hx => hnn x (List.mem_cons_of_mem _ hx)) ⟨w, h, hwpos⟩
      linarith

/-- Correctness of the `bisect_right` loop on a monotone list: with
enough fuel it returns the least index whose entry strictly exceeds
`x`, maintaining the search invariants. -/
theorem bisectGo_spec (a : List ℚ) (x : ℚ)
    (hmono : ∀ i j, i ≤ j → j < a.length → a.getD i 0 ≤ a.getD j 0) :
    ∀ (fuel lo hi : Nat), hi - lo ≤ fuel → lo ≤ hi → hi < a.length →
      (∀ j, j < lo → a.getD j 0 ≤ x) → x < a.getD hi 0 →
      lo ≤ bisectGo a x fuel lo hi ∧ bisectGo a x fuel lo hi ≤ hi ∧
      (∀ j, j < bisectGo a x fuel lo hi → a.getD j 0 ≤ x) ∧
      x < a.getD (bisectGo a x fuel lo hi) 0 := by
  intro fuel
  induction fuel with
  | zero =>
    intro lo hi hfuel hle hlen hpre hx
    have : lo = hi := by omega
    subst this
    exact ⟨Nat.le_refl _, Nat.le_refl _, hpre, hx⟩
  | succ fuel ih =>
    intro lo hi hfuel hle hlen hpre hx
    by_cases hlt : lo < hi
    · have hmidlo : lo ≤ (lo + hi) / 2 := by omega
      have hmidhi : (lo + hi) / 2 < hi := by omega
      by_cases hxm : x < a.getD ((lo + hi) / 2) 0
      · have h := ih lo ((lo + hi) / 2) (by omega) hmidlo (by omega) hpre hxm
        simp only [bisectGo, if_pos hlt, if_pos hxm]
        exact ⟨h.1, by omega, h.2.2.1, h.2.2.2⟩
      · have hxm2 : a.getD ((lo + hi) / 2) 0 ≤ x := le_of_not_lt hxm
        have hpre2 : ∀ j, j < (lo + hi) / 2 + 1 → a.getD j 0 ≤ x := by
          intro j hj
          by_cases hjlo : j < lo
          · exact hpre j hjlo
          · exact le_trans
              (hmono j ((lo + hi) / 2) (by omega) (by omega)) hxm2
        have h := ih ((lo + hi) / 2 + 1) hi (by omega) (by omega) hlen hpre2 hx
        simp only [bisectGo, if_pos hlt, if_neg hxm]
        exact ⟨by omega, h.2.1, h.2.2.1, h.2.2.2⟩
    · have : lo = hi := by omega
      subst this
      simp only [bisectGo, if_neg hlt]
      exact ⟨Nat.le_refl _, Nat.le_refl _, hpre, hx⟩

/-- Core characterization of `choices1` on a valid configuration: it
selects the entry whose accumulated-weight half-open interval contains
`r * total` — the interval of index `i` has length `weights[i]`, which
is the proportional-sampling contract for a uniform draw `r`. -/
theorem choices1_spec {α : Type} (population : List α) (weights : List ℚ)
    (r : ℚ)
    (hlen : weights.length = population.length)
    (hne : population ≠ [])
    (hnn : ∀ w ∈ weights, 0 ≤ w)
    (hpos : ∃ w ∈ weights, 0 < w)
    (hr0 : 0 ≤ r) (hr1 : r < 1) :
    ∃ (i : Nat) (h : i < population.length),
      choices1 population weights r = .ok (population.get ⟨i, h⟩) ∧
      (∀ j, j < i → (accumulate weights).getD j 0 ≤ r * weights.sum) ∧
      r * weights.sum < (accumulate weights).getD i 0 := by
  have hnpos : 0 < population.length := List.length_pos.mpr hne
  have hwne : weights ≠ [] := by
    intro h
    subst h
    simp at hlen
    omega
  have hlast : (accumulate weights).getLast? = Option.some weights.sum := by
    have := accumulateFrom_getLast weights 0 hwne
    simpa [accumulate] using this
  have htot : 0 < weights.sum := sum_pos_of_mem weights hnn hpos
  have hculen : (accumulate weights).length = population.length := by
    rw [accumulate, accumulateFrom_length, hlen]
  have hx1 : r * weights.sum < weights.sum := by
    calc r * weights.sum < 1 * weights.sum := mul_lt_mul_of_pos_right hr1 htot
      _ = weights.sum := one_mul _
  have hlastD : (accumulate weights).getD (population.length - 1) 0 =
      weights.sum := by
    rw [accumulate, accumulateFrom_getD weights 0 _ (by omega)]
    rw [show population.length - 1 + 1 = weights.length by omega,
      List.take_length]
    ring
  have hmono : ∀ i j, i ≤ j → j < (accumulate weights).length →
      (accumulate weights).getD i 0 ≤ (accumulate weights).getD j 0 :=
    fun i j hij hj => accumulateFrom_mono weights hnn 0 i j hij hj
  have hspec := bisectGo_spec (accumulate weights) (r * weights.sum) hmono
    (population.length - 1 - 0) 0 (population.length - 1)
    (Nat.le_refl _) (by omega) (by omega)
    (fun j hj => absurd hj (Nat.not_lt_zero j))
    (by rw [hlastD]; exact hx1)
  obtain ⟨hlo, hhi, hpre, hxlt⟩ := hspec
  have hilt : bisectGo (accumulate weights) (r * weights.sum)
      (population.length - 1 - 0) 0 (population.length - 1) <
      population.length := by omega
  refine ⟨_, hilt, ?_, hpre, hxlt⟩
  unfold choices1 bisect_right
  rw [if_neg (not_ne_iff.mpr hculen), hlast]
  simp only []
  rw [if_neg (not_le.mpr htot)]
  rw [List.getElem?_eq_getElem hilt]
  simp [List.get_eq_getElem]

/-! ## C6 -/

/-- C6 counterexample: selecting from an empty task list does not fail
with any `ConfigError`: `random.choices` raises a bare `IndexError`
(`cum_weights[-1]` on an empty list), which the agent loop's iteration
boundary then swallows; the repository defines no `ConfigError` and the
agent performs no such load-time validation. -/
theorem C6_empty_tasks_indexerror :
    choices1 ([] : List Py) ([] : List ℚ) 0 =
      Except.error "IndexError: list index out of range" := rfl

/-- C6 (amended): the selector returns exactly one of the configured
tasks for every valid configuration (same-length weights, nonnegative,
not all zero), picking the task whose cumulative-weight interval
contains `r * total` (weight-proportional for a uniform draw); an empty
task list raises `IndexError` and an all-zero weight list raises
`ValueError` — not `ConfigError`, and both surface at the loop
iteration, not at load time. -/
theorem C6_task_selection :
    (∀ r : ℚ, choices1 ([] : List Py) ([] : List ℚ) r =
      Except.error "IndexError: list index out of range") ∧
    (∀ (tasks : List Py) (weights : List ℚ) (r : ℚ),
      tasks ≠ [] → weights.length = tasks.length → (∀ w ∈ weights, w = 0) →
      choices1 tasks weights r =
        Except.error "ValueError: Total of weights must be greater than zero") ∧
    (∀ (tasks : List Py) (weights : List ℚ) (r : ℚ),
      weights.length = tasks.length → tasks ≠ [] →
      (∀ w ∈ weights, 0 ≤ w) → (∃ w ∈ weights, 0 < w) → 0 ≤ r → r < 1 →
      ∃ (i : Nat) (h : i < tasks.length),
        choices1 tasks weights r = .ok (tasks.get ⟨i, h⟩) ∧
        (∀ j, j < i → (accumulate weights).getD j 0 ≤ r * weights.sum) ∧
        r * weights.sum < (accumulate weights).getD i 0) := by
  refine ⟨fun r => rfl, ?_, ?_⟩
  · intro tasks weights r hne hlen hz
    have hwne : weights ≠ [] := by
      intro h
      subst h
      simp at hlen
      exact hne (List.length_eq_zero.mp hlen.symm)
    have hsum : weights.sum = 0 := List.sum_eq_zero hz
    have hlast : (accumulate weights).getLast? = Option.some 0 := by
      have := accumulateFrom_getLast weights 0 hwne
      rw [hsum] at this
      simpa [accumulate] using this
    have hculen : (accumulate weights).length = tasks.length := by
      rw [accumulate, accumulateFrom_length, hlen]
    unfold choices1
    rw [if_neg (not_ne_iff.mpr hculen), hlast]
    simp only []
    rw [if_pos (le_refl (0 : ℚ))]
  · intro tasks weights r hlen hne hnn hpos hr0 hr1
    exact choices1_spec tasks weights r hlen hne hnn hpos hr0 hr1

/-- C6 witness: two tasks with weights 1 and 2 and the draw 1/2: the
amended theorem yields a selected configured task together with its
cumulative-interval bounds. -/
theorem C6_task_selection_witness :
    ∃ (i : Nat) (h : i < ([Py.str "post-tweet", Py.str "like-tweet"]).length),
      choices1 [Py.str "post-tweet", Py.str "like-tweet"]
          ([1, 2] : List ℚ) (1 / 2) =
        .ok (([Py.str "post-tweet", Py.str "like-tweet"]).get ⟨i, h⟩) ∧
      (∀ j, j < i → (accumulate ([1, 2] : List ℚ)).getD j 0 ≤
        (1 / 2 : ℚ) * ([1, 2] : List ℚ).sum) ∧
      (1 / 2 : ℚ) * ([1, 2] : List ℚ).sum <
        (accumulate ([1, 2] : List ℚ)).getD i 0 :=
  (C6_task_selection).2.2 [Py.str "post-tweet", Py.str "like-tweet"]
    [1, 2] (1 / 2) rfl (by simp)
    (by intro w hw; rcases List.mem_cons.mp hw with h | h
        · subst h; norm_num
        · simp at h; subst h; norm_num)
    ⟨1, by simp, by norm_num⟩ (by norm_num) (by norm_num)

/-! ## Loop-branch lemmas -/

/-- The own-tweet path of the reply branch: the front tweet is popped,
`get-tweet-replies` is called with the popped tweet's `author_id`, up to
`own_tweet_replies_count` replies are appended at the back of the
buffer, and the branch ends in `continue` with `success` never set. -/
theorem replyBranch_own (cfg : AgentCfg) (env : Env) (st : LoopSt)
    (tweet : Py) (rest : List Py) (tid aid : Py) (replies : List Py)
    (hbuf : st.timeline_tweets = Option.some (Py.list (tweet :: rest)))
    (hid : tweet.get "id" = .ok tid) (htr : tid.truthy = true)
    (hown : is_own_tweet cfg.username tweet = .ok true)
    (haid : tweet.get "author_id" = .ok aid)
    (henv : env ("twitter", "get-tweet-replies", [aid]) = .ok (Py.list replies))
    (hrne : replies ≠ []) :
    replyBranch cfg env st =
      ({ timeline_tweets := Option.some
          (Py.list (rest ++ replies.take cfg.own_tweet_replies_count)),
         last_tweet_time := st.last_tweet_time,
         calls := st.calls ++ [("twitter", "get-tweet-replies", [aid])] },
        BodyExit.continued) := by
  have hb : ((tweet :: rest).length == 0) = false := by
    simp
  have htruthy : (Py.list replies).truthy = true := by
    simp [Py.truthy, hrne]
  unfold replyBranch
  rw [hbuf]
  simp only [Py.len, hb, Bool.false_eq_true, if_false, Py.pop0, hid, htr,
    Bool.not_true, hown, haid, LoopSt.record, henv, htruthy, if_true,
    Py.sliceN, Py.extend]

/-- The falsy-id path of the reply branch: the front tweet is popped
(and stays popped), then the branch hits `continue` without issuing any
external call. -/
theorem replyBranch_falsyId (cfg : AgentCfg) (env : Env) (st : LoopSt)
    (tweet : Py) (rest : List Py) (tid : Py)
    (hbuf : st.timeline_tweets = Option.some (Py.list (tweet :: rest)))
    (hid : tweet.get "id" = .ok tid) (htr : tid.truthy = false) :
    replyBranch cfg env st =
      ({ timeline_tweets := Option.some (Py.list rest),
         last_tweet_time := st.last_tweet_time,
         calls := st.calls }, BodyExit.continued) := by
  have hb : ((tweet :: rest).length == 0) = false := by
    simp
  unfold replyBranch
  rw [hbuf]
  simp only [Py.len, hb, Bool.false_eq_true, if_false, Py.pop0, hid, htr,
    Bool.not_false, if_true]

/-- The like branch when the external `like-tweet` call raises: the
front tweet was already popped, and the exception propagates to the
iteration boundary. -/
theorem likeBranch_raise (env : Env) (st : LoopSt)
    (tweet : Py) (rest : List Py) (tid pv : Py) (e : String)
    (hbuf : st.timeline_tweets = Option.some (Py.list (tweet :: rest)))
    (hid : tweet.get "id" = .ok tid) (htr : tid.truthy = true)
    (hprev : textPreview tweet = .ok pv)
    (henv : env ("twitter", "like-tweet", [tid]) = .error e) :
    likeBranch env st =
      ({ timeline_tweets := Option.some (Py.list rest),
         last_tweet_time := st.last_tweet_time,
         calls := st.calls ++ [("twitter", "like-tweet", [tid])] },
        BodyExit.exc e) := by
  have hb : ((tweet :: rest).length == 0) = false := by
    simp
  unfold likeBranch
  rw [hbuf]
  simp only [Py.len, hb, Bool.false_eq_true, if_false, Py.pop0, hid, htr,
    Bool.not_true, hprev, LoopSt.record, henv]

/-- Dispatch of the loop body to the reply branch when the buffer is
non-empty and the selected task is `reply-to-tweet`. -/
theorem loopBody_reply (cfg : AgentCfg) (env : Env) (now r : ℚ) (st : LoopSt)
    (tweet : Py) (rest : List Py) (actionDict : Py)
    (hbuf : st.timeline_tweets = Option.some (Py.list (tweet :: rest)))
    (hsel : choices1 cfg.tasks cfg.task_weights r = .ok actionDict)
    (hname : actionDict.index "name" = .ok (Py.str "reply-to-tweet")) :
    loopBody cfg env now r st = replyBranch cfg env st := by
  have hb : ((tweet :: rest).length == 0) = false := by
    simp
  have h1 : Py.strEq (Py.str "reply-to-tweet") "post-tweet" = false := rfl
  have h2 : Py.strEq (Py.str "reply-to-tweet") "reply-to-tweet" = true := rfl
  unfold loopBody
  rw [hbuf]
  simp only [Py.len, Except.map, hb, Bool.false_eq_true, if_false,
    hsel, hname, h1, h2, if_true]

/-- Dispatch of the loop body to the like branch when the buffer is
non-empty and the selected task is `like-tweet`. -/
theorem loopBody_like (cfg : AgentCfg) (env : Env) (now r : ℚ) (st : LoopSt)
    (tweet : Py) (rest : List Py) (actionDict : Py)
    (hbuf : st.timeline_tweets = Option.some (Py.list (tweet :: rest)))
    (hsel : choices1 cfg.tasks cfg.task_weights r = .ok actionDict)
    (hname : actionDict.index "name" = .ok (Py.str "like-tweet")) :
    loopBody cfg env now r st = likeBranch env st := by
  have hb : ((tweet :: rest).length == 0) = false := by
    simp
  have h1 : Py.strEq (Py.str "like-tweet") "post-tweet" = false := rfl
  have h2 : Py.strEq (Py.str "like-tweet") "reply-to-tweet" = false := rfl
  have h3 : Py.strEq (Py.str "like-tweet") "like-tweet" = true := rfl
  unfold loopBody
  rw [hbuf]
  simp only [Py.len, Except.map, hb, Bool.false_eq_true, if_false,
    hsel, hname, h1, h2, h3, if_true]

/-! ## C4 -/

/-- C4 (amended): when the reply task pops a buffered post authored by
the agent itself, the executor calls `get-tweet-replies` passing the
popped post's `author_id` (not the post's own id), enqueues at most
`own_tweet_replies_count` of the returned replies at the back of the
buffered timeline, posts no reply (that fetch is the iteration's only
external call) — and the iteration ends via `continue`: the `success`
flag is never set and *no* cooldown sleep runs at all (neither the
success one nor the failure one). -/
theorem C4_own_tweet_continue :
    ∀ (cfg : AgentCfg) (env : Env) (now r : ℚ) (st : LoopSt)
      (tweet : Py) (rest : List Py) (actionDict tid aid : Py)
      (replies : List Py),
      st.timeline_tweets = Option.some (Py.list (tweet :: rest)) →
      choices1 cfg.tasks cfg.task_weights r = .ok actionDict →
      actionDict.index "name" = .ok (Py.str "reply-to-tweet") →
      tweet.get "id" = .ok tid → tid.truthy = true →
      is_own_tweet cfg.username tweet = .ok true →
      tweet.get "author_id" = .ok aid →
      env ("twitter", "get-tweet-replies", [aid]) = .ok (Py.list replies) →
      replies ≠ [] →
      (loopIter cfg env now r st).continued = true ∧
      (loopIter cfg env now r st).success = false ∧
      (loopIter cfg env now r st).sleep = Option.none ∧
      (loopIter cfg env now r st).timeline = Option.some
        (Py.list (rest ++ replies.take cfg.own_tweet_replies_count)) ∧
      (loopIter cfg env now r st).calls =
        st.calls ++ [("twitter", "get-tweet-replies", [aid])] := by
  intro cfg env now r st tweet rest actionDict tid aid replies
    hbuf hsel hname hid htr hown haid henv hrne
  have h1 := loopBody_reply cfg env now r st tweet rest actionDict
    hbuf hsel hname
  have h2 := replyBranch_own cfg env st tweet rest tid aid replies
    hbuf hid htr hown haid henv hrne
  unfold loopIter
  rw [h1, h2]
  exact ⟨rfl, rfl, rfl, rfl, rfl⟩

/-- Concrete agent configuration for the own-tweet scenario: one
`reply-to-tweet` task, `own_tweet_replies_count = 2`, username
`devitalik`. -/
def cfgOwn : AgentCfg :=
  ⟨5, 900, 2, "devitalik", "sys", "anthropic",
    [Py.dict [("name", Py.str "reply-to-tweet")]], [1]⟩

/-- A buffered post authored by the agent itself. -/
def ownTweet : Py :=
  Py.dict [("id", Py.str "t1"), ("author_username", Py.str "devitalik"),
    ("author_id", Py.str "u9"), ("text", Py.str "hello")]

/-- Environment answering `get-tweet-replies` with three replies. -/
def envOwn : Env := fun c =>
  if c.2.1 = "get-tweet-replies" then
    Except.ok (Py.list [Py.str "r1", Py.str "r2", Py.str "r3"])
  else Except.error "unexpected"

/-- The single `reply-to-tweet` task is selected by any draw, here 0. -/
theorem cfgOwn_select :
    choices1 cfgOwn.tasks cfgOwn.task_weights 0 =
      .ok (Py.dict [("name", Py.str "reply-to-tweet")]) := by
  norm_num [cfgOwn, choices1, accumulate, accumulateFrom, bisect_right,
    bisectGo]

/-- C4 counterexample: in the own-tweet scenario the iteration does NOT
count as a success taking the success cooldown: the branch ends in
`continue`, the `success` flag stays `False`, and no sleep runs at all
— even though the replies were fetched and two of them enqueued. -/
theorem C4_own_tweet_not_success :
    (loopIter cfgOwn envOwn 0 0
      ⟨Option.some (Py.list [ownTweet]), 0, []⟩).success = false ∧
    (loopIter cfgOwn envOwn 0 0
      ⟨Option.some (Py.list [ownTweet]), 0, []⟩).sleep = Option.none ∧
    (loopIter cfgOwn envOwn 0 0
      ⟨Option.some (Py.list [ownTweet]), 0, []⟩).timeline =
      Option.some (Py.list [Py.str "r1", Py.str "r2"]) := by
  have h1 := loopBody_reply cfgOwn envOwn 0 0
    ⟨Option.some (Py.list [ownTweet]), 0, []⟩ ownTweet []
    (Py.dict [("name", Py.str "reply-to-tweet")]) rfl cfgOwn_select rfl
  have h2 := replyBranch_own cfgOwn envOwn
    ⟨Option.some (Py.list [ownTweet]), 0, []⟩ ownTweet []
    (Py.str "t1") (Py.str "u9") [Py.str "r1", Py.str "r2", Py.str "r3"]
    rfl rfl rfl rfl rfl rfl (List.cons_ne_nil _ _)
  unfold loopIter
  rw [h1, h2]
  exact ⟨rfl, rfl, rfl⟩

/-- C4 witness: the amended theorem applied to the concrete own-tweet
scenario: the only external call is the reply fetch keyed by the
author id, and the iteration continues without sleeping. -/
theorem C4_own_tweet_continue_witness :
    (loopIter cfgOwn envOwn 0 0
      ⟨Option.some (Py.list [ownTweet]), 0, []⟩).calls =
      [("twitter", "get-tweet-replies", [Py.str "u9"])] ∧
    (loopIter cfgOwn envOwn 0 0
      ⟨Option.some (Py.list [ownTweet]), 0, []⟩).continued = true := by
  have h := C4_own_tweet_continue cfgOwn envOwn 0 0
    ⟨Option.some (Py.list [ownTweet]), 0, []⟩ ownTweet []
    (Py.dict [("name", Py.str "reply-to-tweet")]) (Py.str "t1") (Py.str "u9")
    [Py.str "r1", Py.str "r2", Py.str "r3"]
    rfl cfgOwn_select rfl rfl rfl rfl rfl rfl (List.cons_ne_nil _ _)
  exact ⟨h.2.2.2.2, h.1⟩

/-! ## C5 -/

/-- C5 (amended): the buffer pop is committed *before* the action
completes, not after: a reply iteration that pops a post with a falsy
id drops that post (buffer becomes the tail, no external call, the
iteration just continues), and a like iteration whose external
`like-tweet` call raises has likewise already lost the popped post —
the buffered timeline is never restored on failure. -/
theorem C5_pop_committed_before_consume :
    ∀ (cfg : AgentCfg) (env : Env) (now r : ℚ) (st : LoopSt)
      (tweet : Py) (rest : List Py) (actionDict : Py),
      st.timeline_tweets = Option.some (Py.list (tweet :: rest)) →
      choices1 cfg.tasks cfg.task_weights r = .ok actionDict →
      (∀ tid : Py,
        actionDict.index "name" = .ok (Py.str "reply-to-tweet") →
        tweet.get "id" = .ok tid → tid.truthy = false →
        (loopIter cfg env now r st).timeline = Option.some (Py.list rest) ∧
        (loopIter cfg env now r st).continued = true ∧
        (loopIter cfg env now r st).calls = st.calls) ∧
      (∀ (tid pv : Py) (e : String),
        actionDict.index "name" = .ok (Py.str "like-tweet") →
        tweet.get "id" = .ok tid → tid.truthy = true →
        textPreview tweet = .ok pv →
        env ("twitter", "like-tweet", [tid]) = .error e →
        (loopIter cfg env now r st).raised = true ∧
        (loopIter cfg env now r st).timeline = Option.some (Py.list rest) ∧
        (loopIter cfg env now r st).sleep = Option.some cfg.loop_delay) := by
  intro cfg env now r st tweet rest actionDict hbuf hsel
  constructor
  · intro tid hname hid htr
    have h1 := loopBody_reply cfg env now r st tweet rest actionDict
      hbuf hsel hname
    have h2 := replyBranch_falsyId cfg env st tweet rest tid hbuf hid htr
    unfold loopIter
    rw [h1, h2]
    exact ⟨rfl, rfl, rfl⟩
  · intro tid pv e hname hid htr hprev henv
    have h1 := loopBody_like cfg env now r st tweet rest actionDict
      hbuf hsel hname
    have h2 := likeBranch_raise env st tweet rest tid pv e
      hbuf hid htr hprev henv
    unfold loopIter
    rw [h1, h2]
    exact ⟨rfl, rfl, rfl⟩

/-- Configuration with a single `reply-to-tweet` task (for the falsy-id
scenario). -/
def cfgReply : AgentCfg :=
  ⟨5, 900, 2, "devitalik", "sys", "anthropic",
    [Py.dict [("name", Py.str "reply-to-tweet")]], [1]⟩

/-- A buffered post whose `id` is the empty string (falsy). -/
def noIdTweet : Py := Py.dict [("id", Py.str ""), ("text", Py.str "x")]

/-- Environment that raises on every call (never reached in the
falsy-id scenario). -/
def envDead : Env := fun _ => Except.error "unexpected"

/-- The single task of `cfgReply` is selected by the draw 0. -/
theorem cfgReply_select :
    choices1 cfgReply.tasks cfgReply.task_weights 0 =
      .ok (Py.dict [("name", Py.str "reply-to-tweet")]) := by
  norm_num [cfgReply, choices1, accumulate, accumulateFrom, bisect_right,
    bisectGo]

/-- C5 counterexample: a reply iteration that fails after selecting a
buffered post (falsy id, so nothing is consumed by any action) does NOT
leave the buffered timeline unchanged: the popped post is gone. -/
theorem C5_failed_iteration_loses_post :
    (loopIter cfgReply envDead 0 0
      ⟨Option.some (Py.list [noIdTweet]), 0, []⟩).timeline =
      Option.some (Py.list []) ∧
    Option.some (Py.list []) ≠ Option.some (Py.list [noIdTweet]) := by
  constructor
  · have h1 := loopBody_reply cfgReply envDead 0 0
      ⟨Option.some (Py.list [noIdTweet]), 0, []⟩ noIdTweet []
      (Py.dict [("name", Py.str "reply-to-tweet")]) rfl cfgReply_select rfl
    have h2 := replyBranch_falsyId cfgReply envDead
      ⟨Option.some (Py.list [noIdTweet]), 0, []⟩ noIdTweet [] (Py.str "")
      rfl rfl rfl
    unfold loopIter
    rw [h1, h2]
  · simp [noIdTweet]

/-- Configuration with a single `like-tweet` task. -/
def cfgLike : AgentCfg :=
  ⟨5, 900, 2, "devitalik", "sys", "anthropic",
    [Py.dict [("name", Py.str "like-tweet")]], [1]⟩

/-- A buffered post with a truthy id. -/
def likeTweet : Py := Py.dict [("id", Py.str "t9"), ("text", Py.str "x")]

/-- The single task of `cfgLike` is selected by the draw 0. -/
theorem cfgLike_select :
    choices1 cfgLike.tasks cfgLike.task_weights 0 =
      .ok (Py.dict [("name", Py.str "like-tweet")]) := by
  norm_num [cfgLike, choices1, accumulate, accumulateFrom, bisect_right,
    bisectGo]

/-- C5 witness: the amended theorem at the two concrete scenarios: the
falsy-id reply iteration continues with the post dropped and no
external call, and a like iteration whose `like-tweet` call raises
ends raised with the post likewise dropped. -/
theorem C5_pop_committed_witness :
    ((loopIter cfgReply envDead 0 0
        ⟨Option.some (Py.list [noIdTweet]), 0, []⟩).continued = true ∧
      (loopIter cfgReply envDead 0 0
        ⟨Option.some (Py.list [noIdTweet]), 0, []⟩).calls = []) ∧
    ((loopIter cfgLike envDead 0 0
        ⟨Option.some (Py.list [likeTweet]), 0, []⟩).raised = true ∧
      (loopIter cfgLike envDead 0 0
        ⟨Option.some (Py.list [likeTweet]), 0, []⟩).timeline =
        Option.some (Py.list [])) := by
  constructor
  · have h := (C5_pop_committed_before_consume cfgReply envDead 0 0
      ⟨Option.some (Py.list [noIdTweet]), 0, []⟩ noIdTweet []
      (Py.dict [("name", Py.str "reply-to-tweet")]) rfl cfgReply_select).1
      (Py.str "") rfl rfl rfl
    exact ⟨h.2.1, h.2.2⟩
  · have h := (C5_pop_committed_before_consume cfgLike envDead 0 0
      ⟨Option.some (Py.list [likeTweet]), 0, []⟩ likeTweet []
      (Py.dict [("name", Py.str "like-tweet")]) rfl cfgLike_select).2
      (Py.str "t9") (Py.str "x") "unexpected" rfl rfl rfl rfl rfl
    exact ⟨h.1, h.2.1⟩

end DeVitalik
